import Mathlib

/-
Shallow embedding of the connection-level protocol dispatcher in
src/nexus/server/request.go: the control-message handlers
(handleInformInit, handleInformStart, handleInformFinish,
handleInformTeardown), the data-message dispatchers (handlePublish,
handleCommunicate), getStream, and the top-level handleServerRequest.

Modelling conventions:
- Go side effects on the connection are explicit state passing on a
  World value; external calls and prints are recorded in a returned
  effect list, in execution order.
- Pointers to freshly allocated Streams are modelled by allocation ids
  drawn from a counter, so that replacing an attached Stream is
  observable.
- context.WithCancel allocates a fresh child context id; cancelling it
  adds that id to the set of cancelled contexts. The parent is never
  marked cancelled by cancelling the child, matching Go semantics.
- A Go panic is a fatal failure of the handling task, modelled as
  Except.error carrying the panic message.
- The protobuf tagged unions are Option-of-inductive: none is the unset
  oneof (the Go nil case), and an extra unknown constructor stands for
  an unrecognized concrete variant reaching the default branch.
-/

namespace WandbNexus

/-- Modelled from the spec: the Stream type itself is defined in a file not
present under src (request.go only allocates it and calls init and
responder on it). The spec describes it as the per-connection pipeline with
a running/stopped state, created Uninitialized and moved to Running by its
one-time init. Queue contents are opaque to every claim here. -/
structure Stream where
  running : Bool
deriving DecidableEq

/-- Modelled from the spec: Stream.init is the one-time initialization that
moves the Stream from Uninitialized to Running. Its body is not under src. -/
def Stream.init (s : Stream) : Stream :=
  { s with running := true }

/-- The owning server, as used by request.go: a shutdown flag and the
listening socket. Close calls on the listener are counted so that a double
close is observable. -/
structure Server where
  shutdown : Bool
  listenCloseCount : Nat
deriving DecidableEq

/-- NexusConn as used by request.go: the mux field holding the attached
Stream (none when no InformInit has happened, the Go nil pointer), the
cancellation context, the done completion channel (sends are counted), and
the back-reference to the owning server. -/
structure NexusConn where
  mux : Option (Nat × Stream)
  ctxId : Nat
  doneSignals : Nat
  server : Server
deriving DecidableEq

/-- The state a handler can reach from a NexusConn, plus allocation
counters for Stream pointers and contexts and the set of cancelled context
ids. -/
structure World where
  conn : NexusConn
  nextStreamId : Nat
  nextCtxId : Nat
  cancelledCtxs : List Nat
deriving DecidableEq

/-- The record_type oneof of service.Record. request, run and exit carry
the payload that request.go forwards (x.Request, x.Run, x.Exit); the other
payloads are never read by the dispatcher and are left opaque. unknownRec
stands for an unrecognized concrete wrapper type reaching the default
branch of the type switch. -/
inductive RecordType where
  | header
  | request (payload : Nat)
  | summary
  | run (payload : Nat)
  | history
  | telemetry
  | outputRaw
  | exit (payload : Nat)
  | unknownRec
deriving DecidableEq

/-- service.Record: its record_type oneof; none is the unset case. -/
structure Record where
  recordType : Option RecordType
deriving DecidableEq

/-- The server_request_type oneof of service.ServerRequest. The inform
payloads are opaque to request.go and omitted; the two record variants
carry the Record. unknownReq stands for an unrecognized wrapper reaching
the default branch. -/
inductive ServerRequestType where
  | informInit
  | informStart
  | informFinish
  | recordPublish (r : Record)
  | recordCommunicate (r : Record)
  | informTeardown
  | unknownReq
deriving DecidableEq

/-- service.ServerRequest: its server_request_type oneof; none is unset. -/
structure ServerRequest where
  serverRequestType : Option ServerRequestType
deriving DecidableEq

/-- Observable actions of the handlers, recorded in execution order.
The callHandle effects model the forwarding calls handleRequest,
handleRun and handleRunExit, whose bodies are external collaborators not
under src; each records the stream pointer, the full record and the
payload exactly as passed at the call site. spawnResponder models the
go statement starting the responder task, which is not awaited. -/
inductive Effect where
  | println (s : String)
  | printlnReqgot (payload : Nat)
  | printPublishNum (rt : RecordType)
  | printCommunicateNum (rt : RecordType)
  | sendDone
  | withCancelCreated (parent : Nat) (child : Nat)
  | ctxCancelled (child : Nat)
  | setShutdown
  | closeListener
  | spawnResponder (streamId : Nat)
  | callHandleRequest (stream : Option (Nat × Stream)) (msg : Record) (payload : Nat)
  | callHandleRun (stream : Option (Nat × Stream)) (msg : Record) (payload : Nat)
  | callHandleRunExit (stream : Option (Nat × Stream)) (msg : Record) (payload : Nat)
deriving DecidableEq

/-- True exactly on the effects that forward a record to one of the three
external handlers (handleRequest, handleRun, handleRunExit). -/
def Effect.isHandlerCall : Effect → Bool
  | .callHandleRequest _ _ _ => true
  | .callHandleRun _ _ _ => true
  | .callHandleRunExit _ _ _ => true
  | _ => false

/-- handleInformInit: prints, allocates a fresh Stream (nc.mux new
allocation), runs its one-time init, attaches it to the connection, and
starts the responder as a concurrent task (a spawn effect; nothing awaits
it). The msg payload is unused by the source and omitted. -/
def handleInformInit (w : World) : World × List Effect :=
  let sid := w.nextStreamId
  let s := Stream.init { running := false }
  ( { w with
        conn := { w.conn with mux := some (sid, s) },
        nextStreamId := sid + 1 },
    [.println "PROCESS: INIT", .println "STREAM init", .spawnResponder sid] )

/-- handleInformStart: prints an acknowledgement only; no state change. -/
def handleInformStart (w : World) : World × List Effect :=
  (w, [.println "PROCESS: START"])

/-- handleInformFinish: prints an acknowledgement only; no state change. -/
def handleInformFinish (w : World) : World × List Effect :=
  (w, [.println "PROCESS: FIN"])

/-- getStream: returns nc.mux unconditionally, nil pointer included. -/
def getStream (nc : NexusConn) : Option (Nat × Stream) :=
  nc.mux

/-- Models ref.WhichOneof(desc.Oneofs().ByName("record_type")).Number():
when the oneof is unset, WhichOneof returns a nil descriptor and the
Number call faults, a fatal runtime panic; when a variant is set it yields
that variant's field number, represented here by the variant tag itself
(an injective stand-in, since the concrete proto numbers are not under
src). -/
def whichOneofRecordType (rt : Option RecordType) : Except String RecordType :=
  match rt with
  | none => .error "invalid memory address or nil pointer dereference"
  | some r => .ok r

/-- The Go dynamic type name of each record_type wrapper, as printed by
the %T verb in the UNKNOWN panic message. -/
def recordGoTypeName : RecordType → String
  | .header => "*service.Record_Header"
  | .request _ => "*service.Record_Request"
  | .summary => "*service.Record_Summary"
  | .run _ => "*service.Record_Run"
  | .history => "*service.Record_History"
  | .telemetry => "*service.Record_Telemetry"
  | .outputRaw => "*service.Record_OutputRaw"
  | .exit _ => "*service.Record_Exit"
  | .unknownRec => "unrecognized"

/-- handleCommunicate: looks up the stream, prints the oneof number (which
faults fatally on an unset oneof, before the switch), then switches on the
record type: Request is forwarded to handleRequest; the explicit nil case
(unreachable, since the Number call already faulted) and every other
variant panic. Effects emitted before a panic are lost with the task and
not modelled. -/
def handleCommunicate (w : World) (msg : Record) : Except String (World × List Effect) :=
  let stream := getStream w.conn
  match whichOneofRecordType msg.recordType with
  | .error e => .error e
  | .ok num =>
    match msg.recordType with
    | some (.request p) =>
        .ok (w, [.printCommunicateNum num,
                 .callHandleRequest stream msg p])
    | none => .error "bad2rec"
    | some other => .error ("REC UNKNOWN type " ++ recordGoTypeName other)

/-- handlePublish: looks up the stream, prints the oneof number (faulting
fatally on an unset oneof, before the switch), then switches on the record
type. Header, Summary, History, Telemetry and OutputRaw have empty case
bodies: the record is dropped. Request prints reqgot and is forwarded to
handleRequest; Run to handleRun; Exit to handleRunExit. The explicit nil
case (unreachable here) and the default case panic. -/
def handlePublish (w : World) (msg : Record) : Except String (World × List Effect) :=
  let stream := getStream w.conn
  match whichOneofRecordType msg.recordType with
  | .error e => .error e
  | .ok num =>
    match msg.recordType with
    | some .header => .ok (w, [.printPublishNum num])
    | some (.request p) =>
        .ok (w, [.printPublishNum num, .printlnReqgot p,
                 .callHandleRequest stream msg p])
    | some .summary => .ok (w, [.printPublishNum num])
    | some (.run p) =>
        .ok (w, [.printPublishNum num, .callHandleRun stream msg p])
    | some .history => .ok (w, [.printPublishNum num])
    | some .telemetry => .ok (w, [.printPublishNum num])
    | some .outputRaw => .ok (w, [.printPublishNum num])
    | some (.exit p) =>
        .ok (w, [.printPublishNum num, .callHandleRunExit stream msg p])
    | none => .error "bad2rec"
    | some .unknownRec => .error ("REC UNKNOWN type " ++ recordGoTypeName .unknownRec)

/-- handleInformTeardown: prints, sends true on nc.done, creates a fresh
child of nc.ctx via context.WithCancel and then calls that cancel function
(only the child is marked cancelled; nc.ctx itself is not), sets the owning
server's shutdown flag and closes the listening socket. There is no guard
against running twice. -/
def handleInformTeardown (w : World) : World × List Effect :=
  let child := w.nextCtxId
  ( { w with
        conn := { w.conn with
          doneSignals := w.conn.doneSignals + 1,
          server := { shutdown := true,
                      listenCloseCount := w.conn.server.listenCloseCount + 1 } },
        nextCtxId := child + 1,
        cancelledCtxs := child :: w.cancelledCtxs },
    [.println "PROCESS: TEARDOWN",
     .sendDone,
     .withCancelCreated w.conn.ctxId child,
     .println "PROCESS: TEARDOWN *****1",
     .ctxCancelled child,
     .println "PROCESS: TEARDOWN *****2",
     .setShutdown,
     .closeListener] )

/-- handleServerRequest: the type switch over the server_request_type
oneof. Each of the six recognized variants runs exactly its handler; the
unset oneof panics bad2 and an unrecognized wrapper panics UNKNOWN type. -/
def handleServerRequest (w : World) (msg : ServerRequest) : Except String (World × List Effect) :=
  match msg.serverRequestType with
  | some .informInit => .ok (handleInformInit w)
  | some .informStart => .ok (handleInformStart w)
  | some .informFinish => .ok (handleInformFinish w)
  | some (.recordPublish r) => handlePublish w r
  | some (.recordCommunicate r) => handleCommunicate w r
  | some .informTeardown => .ok (handleInformTeardown w)
  | none => .error "bad2"
  | some .unknownReq => .error "UNKNOWN type unrecognized"

/-- A freshly accepted connection before any message: no Stream attached,
the connection context is id 0 and uncancelled, nothing sent on done, the
server running with its listener open. -/
def initialWorld : World :=
  { conn := { mux := none,
              ctxId := 0,
              doneSignals := 0,
              server := { shutdown := false, listenCloseCount := 0 } },
    nextStreamId := 0,
    nextCtxId := 1,
    cancelledCtxs := [] }

/-- C1 counterexample: a Header record on the Publish path is not forwarded
to any handler. Dispatch succeeds, but the only effect is the number print
and no handler-call effect is emitted, refuting the claim that every
non-Request variant is forwarded to a dedicated external handler. -/
theorem C1_counterexample :
    handlePublish initialWorld { recordType := some .header } =
      .ok (initialWorld, [.printPublishNum .header]) ∧
    Effect.isHandlerCall (.printPublishNum .header) = false := by
  exact ⟨rfl, rfl⟩

/-- C1 amended: on the Publish path, Run is forwarded to handleRun, Exit to
handleRunExit, and Request (despite Publish delivery) to handleRequest,
each with no reply; Header, Summary, History, Telemetry and OutputRaw are
accepted and dropped with no handler call and no reply. -/
theorem C1_publish_routing (w : World) (p : Nat) :
    handlePublish w { recordType := some (.run p) } =
      .ok (w, [.printPublishNum (.run p),
               .callHandleRun (getStream w.conn) { recordType := some (.run p) } p]) ∧
    handlePublish w { recordType := some (.exit p) } =
      .ok (w, [.printPublishNum (.exit p),
               .callHandleRunExit (getStream w.conn) { recordType := some (.exit p) } p]) ∧
    handlePublish w { recordType := some (.request p) } =
      .ok (w, [.printPublishNum (.request p), .printlnReqgot p,
               .callHandleRequest (getStream w.conn) { recordType := some (.request p) } p]) ∧
    handlePublish w { recordType := some .header } = .ok (w, [.printPublishNum .header]) ∧
    handlePublish w { recordType := some .summary } = .ok (w, [.printPublishNum .summary]) ∧
    handlePublish w { recordType := some .history } = .ok (w, [.printPublishNum .history]) ∧
    handlePublish w { recordType := some .telemetry } = .ok (w, [.printPublishNum .telemetry]) ∧
    handlePublish w { recordType := some .outputRaw } = .ok (w, [.printPublishNum .outputRaw]) := by
  exact ⟨rfl, rfl, rfl, rfl, rfl, rfl, rfl, rfl⟩

/-- C2 counterexample: handling InformTeardown does not cancel the
Connection's own cancellation context. From the initial world, whose
connection context id is 0, teardown leaves the cancelled set holding only
the freshly created child context 1; context 0 is not cancelled. -/
theorem C2_counterexample :
    initialWorld.conn.ctxId = 0 ∧
    (handleInformTeardown initialWorld).1.cancelledCtxs = [1] ∧
    (handleInformTeardown initialWorld).1.conn.ctxId ∉
      (handleInformTeardown initialWorld).1.cancelledCtxs := by
  refine ⟨rfl, rfl, ?_⟩
  decide

/-- C2 amended: handling InformTeardown performs, in this order: (1) signal
the Connection's completion channel; (2) create a fresh child of the
Connection's context and immediately cancel that child, leaving the
Connection's own context uncancelled; (3) set the owning Server's shutdown
flag; (4) close the Server's listening socket. -/
theorem C2_teardown_steps (w : World) :
    handleInformTeardown w =
      ( { w with
            conn := { w.conn with
              doneSignals := w.conn.doneSignals + 1,
              server := { shutdown := true,
                          listenCloseCount := w.conn.server.listenCloseCount + 1 } },
            nextCtxId := w.nextCtxId + 1,
            cancelledCtxs := w.nextCtxId :: w.cancelledCtxs },
        [.println "PROCESS: TEARDOWN",
         .sendDone,
         .withCancelCreated w.conn.ctxId w.nextCtxId,
         .println "PROCESS: TEARDOWN *****1",
         .ctxCancelled w.nextCtxId,
         .println "PROCESS: TEARDOWN *****2",
         .setShutdown,
         .closeListener] ) := by
  rfl

/-- C3: teardown is not idempotent in the code. A second InformTeardown on
the already-torn-down initial connection sends on the completion channel a
second time and closes the listening socket a second time: both counters
reach 2, where the claim requires the second call to be a no-op. -/
theorem C3_double_teardown :
    (handleInformTeardown (handleInformTeardown initialWorld).1).1.conn.doneSignals = 2 ∧
    (handleInformTeardown (handleInformTeardown initialWorld).1).1.conn.server.listenCloseCount = 2 := by
  exact ⟨rfl, rfl⟩

/-- C4: a message arriving after Teardown is processed normally, not
discarded: after teardown of the initial connection, a Publish of a Run
record is still dispatched and forwarded to handleRun, and no discard or
report of a post-teardown message occurs anywhere in the code. -/
theorem C4_post_teardown_processed :
    handleServerRequest (handleInformTeardown initialWorld).1
        { serverRequestType := some (.recordPublish { recordType := some (.run 7) }) } =
      .ok ((handleInformTeardown initialWorld).1,
           [.printPublishNum (.run 7),
            .callHandleRun none { recordType := some (.run 7) } 7]) := by
  rfl

/-- C5 counterexample: a second InformInit on the same Connection silently
replaces the attached Stream instead of being a protocol violation: after
one init the connection holds stream allocation 0, after a second init it
holds the distinct fresh allocation 1, and no failure is raised. -/
theorem C5_counterexample :
    (handleInformInit initialWorld).1.conn.mux = some (0, { running := true }) ∧
    (handleInformInit (handleInformInit initialWorld).1).1.conn.mux = some (1, { running := true }) ∧
    (handleInformInit (handleInformInit initialWorld).1).1.conn.mux ≠
      (handleInformInit initialWorld).1.conn.mux := by
  refine ⟨rfl, rfl, ?_⟩
  decide

/-- C5 amended: handleInformInit unconditionally attaches a freshly
allocated, freshly initialized Stream, overwriting whatever was attached
before; a second InformInit therefore silently replaces the first Stream
(last init wins) rather than raising a protocol violation. -/
theorem C5_last_init_wins (w : World) :
    (handleInformInit w).1.conn.mux =
      some (w.nextStreamId, Stream.init { running := false }) ∧
    (handleInformInit (handleInformInit w).1).1.conn.mux =
      some (w.nextStreamId + 1, Stream.init { running := false }) ∧
    (handleInformInit (handleInformInit w).1).1.conn.mux ≠
      (handleInformInit w).1.conn.mux := by
  refine ⟨rfl, rfl, ?_⟩
  intro h
  simp [handleInformInit] at h

/-- C6: each of the six recognized ServerRequest variants is dispatched to
exactly its own handler (the dispatch result is precisely that handler's
result), and an absent or unrecognized variant fails fatally rather than
being a silent no-op. -/
theorem C6_dispatch_total (w : World) (r : Record) :
    handleServerRequest w { serverRequestType := some .informInit } = .ok (handleInformInit w) ∧
    handleServerRequest w { serverRequestType := some .informStart } = .ok (handleInformStart w) ∧
    handleServerRequest w { serverRequestType := some .informFinish } = .ok (handleInformFinish w) ∧
    handleServerRequest w { serverRequestType := some (.recordPublish r) } = handlePublish w r ∧
    handleServerRequest w { serverRequestType := some (.recordCommunicate r) } = handleCommunicate w r ∧
    handleServerRequest w { serverRequestType := some .informTeardown } = .ok (handleInformTeardown w) ∧
    handleServerRequest w { serverRequestType := none } = .error "bad2" ∧
    handleServerRequest w { serverRequestType := some .unknownReq } = .error "UNKNOWN type unrecognized" := by
  exact ⟨rfl, rfl, rfl, rfl, rfl, rfl, rfl, rfl⟩

/-- C7: on the Communicate path only the Request variant is accepted and
routed to handleRequest; every other set variant fails fatally in the
default branch of the switch, and the absent-tag case fails fatally as
well (at the oneof number lookup, before the switch is reached). -/
theorem C7_communicate_only_request (w : World) (p : Nat) :
    handleCommunicate w { recordType := some (.request p) } =
      .ok (w, [.printCommunicateNum (.request p),
               .callHandleRequest (getStream w.conn) { recordType := some (.request p) } p]) ∧
    handleCommunicate w { recordType := some .header } =
      .error "REC UNKNOWN type *service.Record_Header" ∧
    handleCommunicate w { recordType := some (.run p) } =
      .error "REC UNKNOWN type *service.Record_Run" ∧
    handleCommunicate w { recordType := some .summary } =
      .error "REC UNKNOWN type *service.Record_Summary" ∧
    handleCommunicate w { recordType := some .history } =
      .error "REC UNKNOWN type *service.Record_History" ∧
    handleCommunicate w { recordType := some .telemetry } =
      .error "REC UNKNOWN type *service.Record_Telemetry" ∧
    handleCommunicate w { recordType := some .outputRaw } =
      .error "REC UNKNOWN type *service.Record_OutputRaw" ∧
    handleCommunicate w { recordType := some (.exit p) } =
      .error "REC UNKNOWN type *service.Record_Exit" ∧
    handleCommunicate w { recordType := none } =
      .error "invalid memory address or nil pointer dereference" := by
  exact ⟨rfl, rfl, rfl, rfl, rfl, rfl, rfl, rfl, rfl⟩

/-- C8: handleInformInit constructs a fresh Stream, performs its one-time
initialization, attaches it to the Connection, and spawns the responder as
a concurrent task that is not awaited (a spawn effect); the attachment is
present in the World the handler returns, so it is visible before the
dispatcher returns. -/
theorem C8_inform_init (w : World) :
    handleInformInit w =
      ( { w with
            conn := { w.conn with
              mux := some (w.nextStreamId, Stream.init { running := false }) },
            nextStreamId := w.nextStreamId + 1 },
        [.println "PROCESS: INIT", .println "STREAM init",
         .spawnResponder w.nextStreamId] ) := by
  rfl

/-- C9: handleInformStart and handleInformFinish return the World totally
unchanged (hence every field of the Connection is unchanged: the attached
Stream, the completion channel, the cancellation context and the Server
back-reference); their only effect is an acknowledgement print. -/
theorem C9_start_finish_frame (w : World) :
    handleInformStart w = (w, [.println "PROCESS: START"]) ∧
    handleInformFinish w = (w, [.println "PROCESS: FIN"]) := by
  exact ⟨rfl, rfl⟩

/-- C10: getStream returns the mux field unconditionally, and on the
never-initialized initial connection (mux absent) both dispatch paths
proceed rather than rejecting: Publish forwards Run to handleRun and Exit
to handleRunExit, and Communicate forwards Request to handleRequest, each
carrying the absent (nil) Stream. -/
theorem C10_nil_stream_forwarded (nc : NexusConn) (p : Nat) :
    getStream nc = nc.mux ∧
    handlePublish initialWorld { recordType := some (.run p) } =
      .ok (initialWorld, [.printPublishNum (.run p),
                          .callHandleRun none { recordType := some (.run p) } p]) ∧
    handlePublish initialWorld { recordType := some (.exit p) } =
      .ok (initialWorld, [.printPublishNum (.exit p),
                          .callHandleRunExit none { recordType := some (.exit p) } p]) ∧
    handleCommunicate initialWorld { recordType := some (.request p) } =
      .ok (initialWorld, [.printCommunicateNum (.request p),
                          .callHandleRequest none { recordType := some (.request p) } p]) := by
  exact ⟨rfl, rfl, rfl, rfl⟩

end WandbNexus
